import Mathlib

/-!
Verification development for the slideitin job lifecycle and status
propagation engine.  The Go sources contain three backend variants:

* an in-memory queue service (`backend` package `queue`, bounded channel of
  jobs, worker pool, subscriber fan-out over channels);
* a single-process Firestore-backed queue service
  (`backend/services/queue/job_queue.go`, goroutine per job);
* a cross-process variant: an API service that stages files in Cloud
  Storage and enqueues a Cloud Task (`backend/api/services/queue`),
  plus a slides service that performs the generation
  (`backend/slides-service/controllers/task_controller.go` and
  `backend/slides-service/services/slides`).

Each Go function that a claim depends on is translated into an executable
Lean definition below; external collaborators (Firestore, Cloud Storage,
the Gemini model, the Marp renderer) are modelled as explicit state or as
outcome parameters, exactly at the call sites where the Go code consults
them.
-/

namespace Slideitin

/-- `models.SlideSettings`: the settings for slide generation. -/
structure SlideSettings where
  slideDetail : String
  audience : String
deriving DecidableEq, Repr

/-- `models.File`: an uploaded file (filename, byte payload, detected MIME type).
Bytes are modelled as `List Nat`. -/
structure File where
  filename : String
  data : List Nat
  type : String
deriving DecidableEq, Repr

/-! ## In-memory queue variant (`backend/services/queue`, channel-based)

`Service` holds a `jobs` map and a buffered channel `queue` of capacity 100.
We model the map as a function `String → Option MemJob` and the channel by
its current length and capacity. -/

/-- `queue.JobStatus` values. -/
inductive JobStatus where
  | queued
  | processing
  | completed
  | failed
deriving DecidableEq, Repr

/-- The string stored for a status (Go constants `StatusQueued` etc.). -/
def JobStatus.str : JobStatus → String
  | .queued => "queued"
  | .processing => "processing"
  | .completed => "completed"
  | .failed => "failed"

/-- In-memory `queue.Job` (subscriber channels elided; they carry no data
relevant to admission). -/
structure MemJob where
  id : String
  theme : String
  fileNames : List String
  settings : SlideSettings
  status : JobStatus
  message : String
  resultURL : String
  createdAt : Int
  updatedAt : Int
deriving DecidableEq, Repr

/-- In-memory `queue.Service`: job map plus the bounded processing queue,
modelled by its length and capacity (the Go channel is created with
`make(chan *Job, 100)`). -/
structure MemService where
  jobs : String → Option MemJob
  queueLen : Nat
  queueCap : Nat

/-- The queue capacity used by `NewService`. -/
def memQueueCap : Nat := 100

/-- `Service.AddJob` of the in-memory variant: if the channel is already
full (`len(s.queue) >= cap(s.queue)`) the job is rejected with a busy
error before any record is created; otherwise the job is created with
status `queued`, inserted into the map and pushed onto the queue. -/
def memAddJob (s : MemService) (now : Int) (id theme : String)
    (fileNames : List String) (settings : SlideSettings) :
    (Option MemJob × Option String) × MemService :=
  if s.queueLen ≥ s.queueCap then
    ((none, some "system is busy, please try again later"), s)
  else
    let job : MemJob :=
      { id := id, theme := theme, fileNames := fileNames, settings := settings,
        status := .queued, message := "Job added to queue",
        resultURL := "", createdAt := now, updatedAt := now }
    ((some job, none),
      { jobs := fun k => if k = id then some job else s.jobs k,
        queueLen := s.queueLen + 1,
        queueCap := s.queueCap })

/-- `Service.GetJob` of the in-memory variant: plain map lookup. -/
def memGetJob (s : MemService) (id : String) : Option MemJob :=
  s.jobs id

/-- The HTTP status the slide controller returns for a submission, given
the validation outcome and the `AddJob` outcome: validation failures are
rejected with 400 before `AddJob` is called, an `AddJob` error yields 503
(ServiceUnavailable), success yields 202 (Accepted). -/
def submissionHTTPStatus (validationErr : Option String)
    (addJobErr : Option String) : Nat :=
  match validationErr with
  | some _ => 400
  | none =>
    match addJobErr with
    | some _ => 503
    | none => 202

/-! ## Firestore data model (shared by both Firestore-backed variants) -/

/-- `FirestoreJob`: the Firestore representation of a job.  `expiresAt` is
an `int64` with `omitempty`; the Go zero value 0 means "no expiry set",
and all code guards expiry checks with `ExpiresAt > 0`. -/
structure FirestoreJob where
  id : String
  status : String
  message : String
  createdAt : Int
  updatedAt : Int
  expiresAt : Int
deriving DecidableEq, Repr

/-- `FirestoreResult`: the Firestore representation of a job result
(the slides-service shape, which carries both PDF and HTML data; the
single-process variant omits `htmlData`, modelled here as `[]`). -/
structure FirestoreResult where
  id : String
  resultURL : String
  pdfData : List Nat
  htmlData : List Nat
  createdAt : Int
  expiresAt : Int
deriving DecidableEq, Repr

/-- The durable Firestore state: the `jobs` collection and the `results`
collection, both keyed by job id. -/
structure FSState where
  jobs : String → Option FirestoreJob
  results : String → Option FirestoreResult

/-- `Collection("jobs").Doc(id).Set`: create or overwrite a job document. -/
def FSState.setJobDoc (s : FSState) (id : String) (j : FirestoreJob) : FSState :=
  { s with jobs := fun k => if k = id then some j else s.jobs k }

/-- `Collection("jobs").Doc(id).Delete`. -/
def FSState.deleteJobDoc (s : FSState) (id : String) : FSState :=
  { s with jobs := fun k => if k = id then none else s.jobs k }

/-- `ResultsCollection().Doc(id).Set`. -/
def FSState.setResultDoc (s : FSState) (id : String) (r : FirestoreResult) : FSState :=
  { s with results := fun k => if k = id then some r else s.results k }

/-- `ResultsCollection().Doc(id).Delete`. -/
def FSState.deleteResultDoc (s : FSState) (id : String) : FSState :=
  { s with results := fun k => if k = id then none else s.results k }

/-- Firestore `Update` on the job document with paths
`status`, `message`, `updatedAt` and optionally `expiresAt`.
Updating a document that does not exist is a Firestore error and changes
nothing; the boolean result reports whether the update succeeded.
`wok` models whether the underlying Firestore write itself succeeds. -/
def FSState.updateJobDoc (s : FSState) (wok : Bool) (id status message : String)
    (now : Int) (expiresAt : Option Int) : Bool × FSState :=
  if wok then
    match s.jobs id with
    | some j =>
      (true, s.setJobDoc id
        { j with status := status, message := message, updatedAt := now,
                 expiresAt := expiresAt.getD j.expiresAt })
    | none => (false, s)
  else (false, s)

/-! ## File-type validation (`SlideController.GenerateSlides`,
`backend/api/controllers/slides_controller.go`) -/

/-- `filepath.Ext`: the suffix beginning at the final dot of the name
(empty when there is no dot). -/
def goExt (name : String) : String :=
  goExtAux name.toList [] none
where
  /-- Walk the characters, remembering the suffix from the last dot seen. -/
  goExtAux : List Char → List Char → Option (List Char) → String
    | [], _, best => match best with
      | some ext => String.mk ext.reverse
      | none => ""
    | c :: rest, acc, best =>
      if c = '.' then goExtAux rest [c] (some [c])
      else match best with
        | some ext => goExtAux rest acc (some (c :: ext))
        | none => goExtAux rest acc none

/-- `strings.ToLower` restricted to ASCII, which is all the code compares. -/
def asciiToLower (s : String) : String :=
  String.mk (s.toList.map fun c =>
    if 'A' ≤ c ∧ c ≤ 'Z' then Char.ofNat (c.toNat + 32) else c)

/-- Whether `sub` occurs as a contiguous run inside `l`. -/
def containsAux (sub : List Char) : List Char → Bool
  | [] => sub.isEmpty
  | c :: t => sub.isPrefixOf (c :: t) || containsAux sub t

/-- `strings.Contains`. -/
def strContains (s sub : String) : Bool :=
  containsAux sub.toList s.toList

/-- ASCII whitespace characters, enough for the MIME strings compared. -/
def isSpaceChar (c : Char) : Bool :=
  c = ' ' ∨ c = '\t' ∨ c = '\n' ∨ c = '\r'

/-- `strings.TrimSpace` (restricted to ASCII whitespace). -/
def trimSpace (s : String) : String :=
  String.mk (((s.toList.dropWhile isSpaceChar).reverse.dropWhile isSpaceChar).reverse)

/-- The characters before the first occurrence of `sep`, or `none` when
`sep` does not occur (`strings.Index` returning -1). -/
def cutAt (sep : Char) : List Char → Option (List Char)
  | [] => none
  | c :: t =>
    if c = sep then some []
    else match cutAt sep t with
      | none => none
      | some pre => some (c :: pre)

/-- `strings.Index(mimeType, ";")` followed by truncation and
`strings.TrimSpace`: drop any `; charset=...` suffix that
`http.DetectContentType` appends. -/
def stripCharset (mime : String) : String :=
  match cutAt ';' mime.toList with
  | none => mime
  | some pre => trimSpace (String.mk pre)

/-- The file-type validation of `GenerateSlides`, operating on the
filename and the content-sniffed MIME type (after charset stripping):
the extension must be one of `.pdf`, `.md`, `.txt`, and then the sniffed
MIME type is accepted if it is `application/pdf`, `text/plain`, or any
markdown/text type provided the extension is `.md` or `.txt`. -/
def isAllowedFile (filename mimeType : String) : Bool :=
  let fileExt := asciiToLower (goExt filename)
  if fileExt = ".pdf" ∨ fileExt = ".md" ∨ fileExt = ".txt" then
    if mimeType = "application/pdf" then
      true
    else if mimeType = "text/plain" then
      true
    else if strContains mimeType "markdown" ∨ strContains mimeType "text/" then
      fileExt = ".md" ∨ fileExt = ".txt"
    else
      false
  else
    false

/-- The per-file loop of `GenerateSlides`: each uploaded file's content is
sniffed (the sniffed, charset-stripped MIME type is the second component),
and the first file failing validation aborts the request with the
descriptive error, before any job record is created. -/
def validateFiles : List (String × String) → Option String
  | [] => none
  | (filename, sniffed) :: rest =>
    if isAllowedFile filename (stripCharset sniffed) then
      validateFiles rest
    else
      some ("Unsupported file type: " ++ filename ++
        ". Only PDF, Markdown, and TXT files are allowed")

/-! ## The slides generator (`slides-service/services/slides`, `GenerateSlides`)

External effects (Gemini upload, prompt construction, token counting, the
model call, the Marp renderings) are modelled by a `GenEnv` giving each
call site's outcome; the status-update callback is modelled by an oracle
`upd : Nat → Option String` giving the error (if any) returned by the
`k`-th `statusUpdateFn` call. -/

/-- Outcomes of the external calls made by `GenerateSlides`, in source
order.  A `some e` means that call fails with message `e`. -/
structure GenEnv where
  uploadErr : Option String
  promptErr : Option String
  countErr : Option String
  totalTokens : Nat
  modelErr : Option String
  modelText : String
  pdfErr : Option String
  htmlErr : Option String
  pdfBytes : List Nat
  htmlBytes : List Nat
deriving DecidableEq, Repr

/-- The lines of the response text, splitting on `\r?\n` as the Go regexp
does: split at each newline, dropping the single carriage return the
regexp consumes just before it.  `acc` holds the current line reversed. -/
def splitLinesAux : List Char → List Char → List String
  | [], acc => [String.mk acc.reverse]
  | c :: rest, acc =>
    if c = '\n' then
      String.mk (stripCRrev acc).reverse :: splitLinesAux rest []
    else
      splitLinesAux rest (c :: acc)
where
  /-- Drop a trailing carriage return from a reversed line. -/
  stripCRrev : List Char → List Char
    | '\r' :: t => t
    | acc => acc

/-- The `\r?\n`-separated lines of the text. -/
def goSplitLines (text : String) : List String :=
  splitLinesAux text.toList []

/-- Whether a line starts with triple backticks (`strings.HasPrefix`). -/
def hasTicks (line : String) : Bool :=
  "```".toList.isPrefixOf line.toList

/-- Join lines with newlines (`strings.Join(content, "\n")`). -/
def joinLines : List String → String
  | [] => ""
  | [x] => x
  | x :: rest => x ++ "\n" ++ joinLines rest

/-- `extractMarkdownContent`: the content strictly between the first and
last lines starting with triple backticks, joined by newlines; the whole
text when no such pair of lines exists. -/
def extractMarkdownContent (text : String) : String :=
  let lines := goSplitLines text
  let ticks := (List.range lines.length).filter
    (fun i => hasTicks ((lines.get? i).getD ""))
  match ticks.head?, ticks.getLast? with
  | some first, some last =>
    if last > first then
      joinLines ((lines.drop (first + 1)).take (last - (first + 1)))
    else
      text
  | _, _ => text

/-- The four fixed progress messages issued through `statusUpdateFn`. -/
def genMsgs : List String :=
  ["Analyzing uploaded files", "Generating content for slides",
   "Creating presentation with AI", "Finalizing presentation"]

/-- The input-token ceiling enforced before calling the model. -/
def tokenCeiling : Nat := 16384

/-- `GenerateSlides` of the slides service: returns the list of
`statusUpdateFn` calls that were made (in order) and either the generated
`(pdf, html)` pair or the error.  A non-nil result from `statusUpdateFn`
aborts generation with that error, exactly as in the source. -/
def generateSlidesO (upd : Nat → Option String) (env : GenEnv) :
    List String × Except String (List Nat × List Nat) :=
  match upd 0 with
  | some e => (genMsgs.take 1, .error e)
  | none =>
  match env.uploadErr with
  | some e => (genMsgs.take 1, .error e)
  | none =>
  match upd 1 with
  | some e => (genMsgs.take 2, .error e)
  | none =>
  match env.promptErr with
  | some e => (genMsgs.take 2, .error e)
  | none =>
  match upd 2 with
  | some e => (genMsgs.take 3, .error e)
  | none =>
  match env.countErr with
  | some e => (genMsgs.take 3, .error e)
  | none =>
  if env.totalTokens > tokenCeiling then
    (genMsgs.take 3, .error "documents are too large to process")
  else
  match env.modelErr with
  | some e => (genMsgs.take 3, .error e)
  | none =>
  if extractMarkdownContent env.modelText = "" then
    (genMsgs.take 3, .error "failed to generate presentation. Please try again.")
  else
  match upd 3 with
  | some e => (genMsgs.take 4, .error e)
  | none =>
  match env.pdfErr with
  | some e => (genMsgs.take 4, .error e)
  | none =>
  match env.htmlErr with
  | some e => (genMsgs.take 4, .error e)
  | none =>
  (genMsgs.take 4, .ok (env.pdfBytes, env.htmlBytes))

/-! ## Single-process Firestore variant (`backend/services/queue/job_queue.go`)

`processJob` is modelled by the ordered list of Firestore writes it
issues; `applyWrites` replays such a trace against a store, with a flag
per write telling whether that Firestore call succeeded (the code logs
and ignores every write error). -/

/-- One Firestore write issued by the queue service. -/
inductive FsWrite where
  | updateJob (id status message : String) (now : Int) (expiresAt : Option Int)
  | setResult (id : String) (r : FirestoreResult)
deriving DecidableEq, Repr

/-- `updateJobStatus`: update `status`, `message`, `updatedAt`; never
touches `expiresAt`. -/
def updateJobStatusWrite (id status message : String) (now : Int) : FsWrite :=
  .updateJob id status message now none

/-- `setJobCompleted`: update to `completed` and set the job to expire
in 5 minutes (300 seconds). -/
def setJobCompletedWrite (id message : String) (now : Int) : FsWrite :=
  .updateJob id "completed" message now (some (now + 300))

/-- `storeResult`: write the result document with a 1 hour expiry
(this variant stores only PDF data). -/
def storeResultWrite (id resultURL : String) (pdf : List Nat) (now : Int) : FsWrite :=
  .setResult id
    { id := id, resultURL := resultURL, pdfData := pdf, htmlData := [],
      createdAt := now, expiresAt := now + 3600 }

/-- The Firestore writes of `processJob`, given the progress messages the
generator issued through `statusUpdateFn` (each becomes an intra-state
`processing` update, and the callback always returns nil) and the
generator's outcome: an immediate `processing` transition, the progress
updates, then on error a single `failed` write, or on success the result
write followed by the `completed` write. -/
def processJobWrites (id : String) (msgs : List String)
    (outcome : Except String (List Nat)) (now : Int) : List FsWrite :=
  updateJobStatusWrite id "processing" "Processing slides" now
    :: msgs.map (fun m => updateJobStatusWrite id "processing" m now)
    ++ match outcome with
       | .error e =>
         [updateJobStatusWrite id "failed" ("Failed to generate slides: " ++ e) now]
       | .ok pdf =>
         [storeResultWrite id ("/results/" ++ id) pdf now,
          setJobCompletedWrite id "Slides generated successfully" now]

/-- Apply one write; `wok` is whether the Firestore call succeeded. -/
def applyWrite (s : FSState) (wok : Bool) : FsWrite → FSState
  | .updateJob id st msg now exp => (s.updateJobDoc wok id st msg now exp).2
  | .setResult id r => if wok then s.setResultDoc id r else s

/-- Replay a write trace; `okF k` tells whether the `k`-th write (counting
from `k0`) succeeded.  Failed writes are logged and ignored by the code,
so they simply leave the store unchanged. -/
def applyWrites (okF : Nat → Bool) (k0 : Nat) (s : FSState) : List FsWrite → FSState
  | [] => s
  | w :: ws => applyWrites okF (k0 + 1) (applyWrite s (okF k0) w) ws

/-- The status string carried by a write, for stating trace invariants. -/
def FsWrite.statusOf : FsWrite → Option String
  | .updateJob _ st _ _ _ => some st
  | .setResult _ _ => none

/-- `AddJob` of this variant (the part up to spawning the processing
goroutine): write the initial job record; on write failure return an
error and no job.  `setOk` is the outcome of the Firestore `Set`. -/
def fsAddJob (setOk : Bool) (s : FSState) (id : String) (now : Int) :
    Option FirestoreJob × FSState :=
  if setOk then
    let j : FirestoreJob :=
      { id := id, status := "queued", message := "Job added to queue",
        createdAt := now, updatedAt := now, expiresAt := 0 }
    (some j, s.setJobDoc id j)
  else
    (none, s)

/-- The in-memory `Job` view `GetJob` converts a Firestore document to. -/
structure JobView where
  id : String
  status : String
  message : String
  resultURL : String
  createdAt : Int
  updatedAt : Int
deriving DecidableEq, Repr

/-- Whether a status string is terminal (`StatusCompleted`/`StatusFailed`). -/
def isTerminal (status : String) : Bool :=
  status = "completed" ∨ status = "failed"

/-- `GetJob`: look the job up; if its stored expiry has passed
(`ExpiresAt > 0 && now > ExpiresAt`), delete the record and return
not-found (`delOk` tells whether the delete call itself succeeds — its
error is only logged, and not-found is returned either way); otherwise,
when the job is completed, resolve the result reference from the results
collection (empty when absent) and return the job view. -/
def getJob (s : FSState) (id : String) (now : Int) (delOk : Bool) :
    Option JobView × FSState :=
  match s.jobs id with
  | none => (none, s)
  | some fj =>
    if fj.expiresAt > 0 ∧ now > fj.expiresAt then
      (none, if delOk then s.deleteJobDoc id else s)
    else
      let resultURL :=
        if fj.status = "completed" then
          match s.results id with
          | some r => r.resultURL
          | none => ""
        else ""
      (some { id := fj.id, status := fj.status, message := fj.message,
              resultURL := resultURL, createdAt := fj.createdAt,
              updatedAt := fj.updatedAt }, s)

/-- The `JobUpdate` snapshot sent to SSE clients. -/
structure JobUpdate where
  id : String
  status : String
  message : String
  resultURL : String
  updatedAt : Int
deriving DecidableEq, Repr

/-- The update built from the initial `GetJob` view. -/
def JobView.toUpdate (j : JobView) : JobUpdate :=
  { id := j.id, status := j.status, message := j.message,
    resultURL := j.resultURL, updatedAt := j.updatedAt }

/-- The snapshot-listener loop of `WatchJob`: each element of `snaps` is
one Firestore snapshot of the job document (`none` when the document no
longer exists).  Returns the updates sent and the error, if any, that
ended the loop.  The results collection is consulted per snapshot; it is
modelled with the state at watch start (concurrent result writes are not
modelled).  An exhausted snapshot list stands for cancellation. -/
def watchLoop (s : FSState) (id : String) :
    List (Option FirestoreJob) → List JobUpdate × Option String
  | [] => ([], some "context canceled")
  | none :: _ => ([], some "job deleted")
  | some fj :: rest =>
    let resultURL :=
      if fj.status = "completed" then
        match s.results id with
        | some r => r.resultURL
        | none => ""
      else ""
    let u : JobUpdate :=
      { id := fj.id, status := fj.status, message := fj.message,
        resultURL := resultURL, updatedAt := fj.updatedAt }
    if isTerminal fj.status then
      ([u], none)
    else
      let (us, e) := watchLoop s id rest
      (u :: us, e)

/-- The result of `WatchJob`: the updates emitted, the error returned
(`none` on normal termination), and whether `WatchJob` itself closed the
updates channel (it does so only in the already-terminal fast path). -/
structure WatchResult where
  sent : List JobUpdate
  err : Option String
  closedByWatcher : Bool
deriving DecidableEq, Repr

/-- `WatchJob`: fetch the job (`GetJob`); error if not found; always send
one update reflecting the current state; if that state is terminal, close
the channel and return; otherwise follow the snapshot listener. -/
def watchJob (s : FSState) (id : String) (now : Int) (delOk : Bool)
    (snaps : List (Option FirestoreJob)) : WatchResult :=
  match getJob s id now delOk with
  | (none, _) => { sent := [], err := some "job not found", closedByWatcher := false }
  | (some job, s1) =>
    let u0 := job.toUpdate
    if isTerminal job.status then
      { sent := [u0], err := none, closedByWatcher := true }
    else
      let (us, e) := watchLoop s1 id snaps
      { sent := u0 :: us, err := e, closedByWatcher := false }

/-! ## Cross-process (Cloud Tasks) variant

The API service (`backend/api/services/queue/job_queue.go`) stages input
files in Cloud Storage and enqueues a Cloud Task; the slides service
(`backend/slides-service/controllers/task_controller.go`) receives the
task, downloads the files, generates, stores the result and marks the job
completed. -/

/-- A blob stored in the Cloud Storage bucket. -/
structure GcsObject where
  data : List Nat
  contentType : String
deriving DecidableEq, Repr

/-- The bucket contents, keyed by object path. -/
def GcsStore : Type := String → Option GcsObject

/-- `FileReference`: a reference to a staged file. -/
structure FileRef where
  filename : String
  type : String
  gcsPath : String
deriving DecidableEq, Repr

/-- `TaskPayload`: the serialized hand-off message. -/
structure TaskPayload where
  jobID : String
  theme : String
  files : List FileRef
  settings : SlideSettings

/-- The external-call outcomes `ProcessSlides` runs against.  `updOk k`
is the success of the `k`-th `updateJobStatus` Firestore write (call 0 is
the initial "Processing slides" update; calls 1..4 are issued from inside
`GenerateSlides` through `statusUpdateFn`; the write after the generator
returns, when reached, is the next index).  `resultSetOk` and
`completeOk` are the `storeResult` and `setJobCompleted` writes, and
`deleteOk` the per-path GCS deletions. -/
structure TaskEnv where
  storageOk : Bool
  updOk : Nat → Bool
  gen : GenEnv
  resultSetOk : Bool
  completeOk : Bool
  deleteOk : String → Bool

/-- `downloadFileFromGCS` applied to each file reference in order: a
missing object fails that download, aborting with the offending
filename. -/
def downloadFiles (gcs : GcsStore) : List FileRef → Except String (List File)
  | [] => .ok []
  | f :: rest =>
    match gcs f.gcsPath with
    | none => .error f.filename
    | some obj =>
      match downloadFiles gcs rest with
      | .error e => .error e
      | .ok fs => .ok ({ filename := f.filename, data := obj.data,
                         type := obj.contentType } :: fs)

/-- The best-effort GCS cleanup loop: delete each staged path; a failed
delete is logged and the loop continues. -/
def deleteStaged (delOk : String → Bool) (gcs : GcsStore) :
    List String → GcsStore
  | [] => gcs
  | path :: rest =>
    let gcs1 : GcsStore :=
      if delOk path then fun k => if k = path then none else gcs k else gcs
    deleteStaged delOk gcs1 rest

/-- The final state of one `ProcessSlides` request: Firestore, the
bucket, and the HTTP status returned to Cloud Tasks. -/
structure TaskOutcome where
  fs : FSState
  gcs : GcsStore
  httpStatus : Nat

/-- `ProcessSlides` of the slides service.  Shape of the source:
initial `processing` update (its failure answers 500 with no further
writes); per-file GCS download (a failure writes `failed` best-effort
and answers 500); `GenerateSlides` with `statusUpdateFn` =
`updateJobStatus` whose write error aborts generation; on generator
error a `failed` write and 500; `storeResult`, whose failure writes
`failed` and answers 500; best-effort deletion of the staged files;
`setJobCompleted`, whose failure answers 500 (leaving the job in
`processing`); otherwise 200.

The status-update oracle handed to the generator and the replay of those
same writes agree by construction: the `k`-th callback write succeeds
exactly when `updOk k` holds and the job document exists, and the
document's existence cannot change during the run (these updates never
create or delete it). -/
def processSlides (env : TaskEnv) (p : TaskPayload) (now : Int)
    (fs0 : FSState) (gcs0 : GcsStore) : TaskOutcome :=
  if ¬env.storageOk then
    { fs := fs0, gcs := gcs0, httpStatus := 500 }
  else
    let (ok0, fs1) :=
      fs0.updateJobDoc (env.updOk 0) p.jobID "processing" "Processing slides" now none
    if ¬ok0 then
      { fs := fs1, gcs := gcs0, httpStatus := 500 }
    else
      match downloadFiles gcs0 p.files with
      | .error fname =>
        let fs2 := (fs1.updateJobDoc (env.updOk 1) p.jobID "failed"
          ("Failed to download file " ++ fname) now none).2
        { fs := fs2, gcs := gcs0, httpStatus := 500 }
      | .ok _files =>
        let docPresent := (fs1.jobs p.jobID).isSome
        let upd : Nat → Option String := fun k =>
          if env.updOk (k + 1) ∧ docPresent then none
          else some "firestore update failed"
        let (msgs, res) := generateSlidesO upd env.gen
        let fs2 := applyProgress fs1 p.jobID msgs now env.updOk 1
        let nextIdx := 1 + msgs.length
        match res with
        | .error e =>
          let fs3 := (fs2.updateJobDoc (env.updOk nextIdx) p.jobID "failed"
            ("Failed to generate slides: " ++ e) now none).2
          { fs := fs3, gcs := gcs0, httpStatus := 500 }
        | .ok (pdf, html) =>
          let resultURL := "/results/" ++ p.jobID
          if env.resultSetOk then
            let fs3 := fs2.setResultDoc p.jobID
              { id := p.jobID, resultURL := resultURL, pdfData := pdf,
                htmlData := html, createdAt := now, expiresAt := now + 3600 }
            let gcs1 := deleteStaged env.deleteOk gcs0 (p.files.map (·.gcsPath))
            let (okC, fs4) := fs3.updateJobDoc env.completeOk p.jobID "completed"
              "Slides generated successfully" now (some (now + 300))
            if okC then
              { fs := fs4, gcs := gcs1, httpStatus := 200 }
            else
              { fs := fs4, gcs := gcs1, httpStatus := 500 }
          else
            let fs3 := (fs2.updateJobDoc (env.updOk nextIdx) p.jobID "failed"
              "Failed to store result: failed to store result" now none).2
            { fs := fs3, gcs := gcs0, httpStatus := 500 }
where
  /-- Replay the `statusUpdateFn` writes `GenerateSlides` issued. -/
  applyProgress (fs : FSState) (jobID : String) (msgs : List String) (now : Int)
      (updOk : Nat → Bool) (k : Nat) : FSState :=
    match msgs with
    | [] => fs
    | m :: rest =>
      applyProgress ((fs.updateJobDoc (updOk k) jobID "processing" m now none).2)
        jobID rest now updOk (k + 1)

/-- The outcome of one `AddJob` call of the API service. -/
structure AddJobOutcome where
  job : Option JobView
  err : Option String
  fs : FSState
  gcs : GcsStore

/-- External-call outcomes for the API-service `AddJob`: the initial
Firestore `Set`, the per-file GCS uploads, the best-effort `failed`
status write, and the Cloud Task creation. -/
structure AddEnv where
  setOk : Bool
  uploadOk : String → Bool
  updOk : Bool
  taskOk : Bool

/-- `uploadFileToGCS` applied to each file in order: object path
`jobID/filename`; earlier uploads stay in the bucket when a later one
fails; the error carries the offending filename. -/
def uploadFilesToGCS (upOk : String → Bool) (jobID : String) (gcs : GcsStore) :
    List File → GcsStore × Except String (List FileRef)
  | [] => (gcs, .ok [])
  | f :: rest =>
    if upOk f.filename then
      let path := jobID ++ "/" ++ f.filename
      let gcs1 : GcsStore := fun k =>
        if k = path then some { data := f.data, contentType := f.type } else gcs k
      match uploadFilesToGCS upOk jobID gcs1 rest with
      | (gcs2, .error e) => (gcs2, .error e)
      | (gcs2, .ok refs) =>
        (gcs2, .ok ({ filename := f.filename, type := f.type, gcsPath := path } :: refs))
    else
      (gcs, .error f.filename)

/-- `AddJob` of the API service (`backend/api/services/queue`): write the
initial `queued` record (failure returns `nil, err` with nothing
created); then stage each file in GCS — a failure updates the record to
`failed` (best-effort write) and returns the failed in-memory job
together with a non-nil error; then create the Cloud Task — a failure
likewise updates to `failed` and returns the failed job with a non-nil
error; otherwise the queued job and no error.  The Cloud Task itself has
no durable effect modelled beyond its success flag. -/
def ctAddJob (env : AddEnv) (fs0 : FSState) (gcs0 : GcsStore)
    (id _theme : String) (files : List File) (now : Int) : AddJobOutcome :=
  if ¬env.setOk then
    { job := none, err := some "failed to store job", fs := fs0, gcs := gcs0 }
  else
    let rec0 : FirestoreJob :=
      { id := id, status := "queued", message := "Job added to queue",
        createdAt := now, updatedAt := now, expiresAt := 0 }
    let fs1 := fs0.setJobDoc id rec0
    let job0 : JobView :=
      { id := id, status := "queued", message := "Job added to queue",
        resultURL := "", createdAt := now, updatedAt := now }
    match uploadFilesToGCS env.uploadOk id gcs0 files with
    | (gcs1, .error fname) =>
      let msg := "Failed to upload file " ++ fname
      let fs2 := (fs1.updateJobDoc env.updOk id "failed" msg now none).2
      { job := some { job0 with status := "failed", message := msg, updatedAt := now },
        err := some "failed to upload file", fs := fs2, gcs := gcs1 }
    | (gcs1, .ok _refs) =>
      if ¬env.taskOk then
        let msg := "Failed to queue job"
        let fs2 := (fs1.updateJobDoc env.updOk id "failed" msg now none).2
        { job := some { job0 with status := "failed", message := msg, updatedAt := now },
          err := some "failed to create Cloud Task", fs := fs2, gcs := gcs1 }
      else
        { job := some job0, err := none, fs := fs1, gcs := gcs1 }

/-! ## Shared auxiliary definitions for the theorems -/

/-- An empty Firestore state. -/
def emptyFS : FSState := { jobs := fun _ => none, results := fun _ => none }

/-- The four job status strings. -/
def validStatuses : List String := ["queued", "processing", "completed", "failed"]

/-- Whether a write is a result-store write. -/
def FsWrite.isSetResult : FsWrite → Bool
  | .setResult _ _ => true
  | .updateJob _ _ _ _ _ => false

/-- A `GenEnv` in which every external call succeeds: used as the concrete
successful-generation environment of several witnesses. -/
def happyGen : GenEnv :=
  { uploadErr := none, promptErr := none, countErr := none, totalTokens := 1000,
    modelErr := none, modelText := "```markdown\n# Slide\n```",
    pdfErr := none, htmlErr := none, pdfBytes := [37, 80, 68, 70], htmlBytes := [60] }

end Slideitin

namespace Slideitin

/-! ## Claims -/

/-- C2: when the admission bound of the in-memory queue is already
reached (`len(queue) >= cap(queue)`), `AddJob` rejects the submission
with the explicit busy error, creates no job record and leaves the
service state (job map and queue) exactly as it was; the controller maps
this error to 503 Service Unavailable while validation errors are mapped
to 400 before `AddJob` is ever called, so the two rejections are
distinct. -/
theorem addJob_busy_rejects (s : MemService) (now : Int) (id theme : String)
    (fns : List String) (st : SlideSettings) (h : s.queueLen ≥ s.queueCap) :
    memAddJob s now id theme fns st =
      ((none, some "system is busy, please try again later"), s)
    ∧ submissionHTTPStatus none (some "system is busy, please try again later") = 503
    ∧ (∀ v a, submissionHTTPStatus (some v) a = 400) := by
  refine ⟨?_, rfl, fun v a => rfl⟩
  simp [memAddJob, h]

/-- Witness for C2: a service whose queue holds 100 jobs (the capacity of
`make(chan *Job, 100)`) rejects the next submission and is unchanged. -/
theorem addJob_busy_rejects_witness :
    memAddJob { jobs := fun _ => none, queueLen := 100, queueCap := memQueueCap }
        0 "job-1" "default" ["notes.md"] { slideDetail := "minimal", audience := "general" } =
      ((none, some "system is busy, please try again later"),
       { jobs := fun _ => none, queueLen := 100, queueCap := memQueueCap }) :=
  (addJob_busy_rejects _ 0 "job-1" "default" ["notes.md"]
    { slideDetail := "minimal", audience := "general" } (by decide)).1

/-- C3 counterexample: the claim asserts that a file named `notes.txt`
whose content sniffs as `application/pdf` is rejected; the code accepts
it — the extension `.txt` is on the extension allow-list and the sniffed
type `application/pdf` is accepted outright, with no cross-check between
extension and sniffed type. -/
theorem fileValidation_txt_pdf_accepted :
    isAllowedFile "notes.txt" "application/pdf" = true
    ∧ validateFiles [("notes.txt", "application/pdf")] = none := by
  constructor <;> rfl

/-- C3 (amended): `data.exe` with binary-sniffed content is rejected with
a descriptive error naming the file (and the request is answered 400
before any job record is created); `notes.md` sniffing as plain text
(with charset suffix, as `http.DetectContentType` produces) is accepted;
`notes.txt` sniffing as `application/pdf` is accepted, because both the
extension and the sniffed type independently pass the allow-list. -/
theorem fileValidation_spec :
    validateFiles [("data.exe", "application/octet-stream")] =
      some "Unsupported file type: data.exe. Only PDF, Markdown, and TXT files are allowed"
    ∧ validateFiles [("notes.md", "text/plain; charset=utf-8")] = none
    ∧ validateFiles [("notes.txt", "application/pdf")] = none
    ∧ submissionHTTPStatus
        (some "Unsupported file type: data.exe. Only PDF, Markdown, and TXT files are allowed")
        none = 400 := by
  refine ⟨?_, ?_, ?_, rfl⟩ <;> rfl

/-- C6: for a completed job record, `GetJob` is idempotent until expiry —
any two calls while the expiry has not passed return the identical view
(hence the same result reference) and leave the store untouched; once the
expiry has passed, the call deletes the record, returns not-found, and
every later call (whether or not the delete itself succeeded) returns
not-found as well. -/
theorem getJob_idempotent_until_expiry (s : FSState) (id : String)
    (fj : FirestoreJob) (t1 t2 : Int) (d1 d2 : Bool)
    (h : s.jobs id = some fj) (_hc : fj.status = "completed") (hle : t1 ≤ t2) :
    (¬(fj.expiresAt > 0 ∧ t2 > fj.expiresAt) →
      getJob s id t1 d1 = getJob s id t2 d2
      ∧ (getJob s id t1 d1).1.isSome = true
      ∧ (getJob s id t1 d1).2 = s)
    ∧ ((fj.expiresAt > 0 ∧ t1 > fj.expiresAt) →
      (getJob s id t1 d1).1 = none
      ∧ (getJob ((getJob s id t1 d1).2) id t2 d2).1 = none) := by
  constructor
  · intro hlive
    have hlive1 : ¬(fj.expiresAt > 0 ∧ t1 > fj.expiresAt) := by
      intro hx
      exact hlive ⟨hx.1, by omega⟩
    simp [getJob, h, if_neg hlive, if_neg hlive1]
  · intro hexp
    have hexp2 : fj.expiresAt > 0 ∧ t2 > fj.expiresAt := ⟨hexp.1, by omega⟩
    simp only [getJob, h, if_pos hexp]
    cases d1 with
    | true => simp [getJob, FSState.deleteJobDoc]
    | false => simp [getJob, h, if_pos hexp2]

/-- A Firestore state with one completed job and its result, for the C6
witness. -/
def completedFS : FSState :=
  { jobs := fun k => if k = "j1" then
      some { id := "j1", status := "completed", message := "Slides generated successfully",
             createdAt := 10, updatedAt := 20, expiresAt := 320 }
      else none,
    results := fun k => if k = "j1" then
      some { id := "j1", resultURL := "/results/j1", pdfData := [1], htmlData := [],
             createdAt := 20, expiresAt := 3620 }
      else none }

/-- Witness for C6: before the expiry (320) two polls agree and find the
job; a poll at time 400 > 320 deletes the record and a later poll still
reports not-found. -/
theorem getJob_idempotent_until_expiry_witness :
    (getJob completedFS "j1" 100 true = getJob completedFS "j1" 300 false
      ∧ (getJob completedFS "j1" 100 true).1.isSome = true
      ∧ (getJob completedFS "j1" 100 true).2 = completedFS)
    ∧ ((getJob completedFS "j1" 400 true).1 = none
      ∧ (getJob ((getJob completedFS "j1" 400 true).2) "j1" 500 true).1 = none) :=
  ⟨(getJob_idempotent_until_expiry completedFS "j1" _ 100 300 true false
      rfl rfl (by omega)).1 (by decide),
   (getJob_idempotent_until_expiry completedFS "j1" _ 400 500 true true
      rfl rfl (by omega)).2 (by decide)⟩

/-- C7: `WatchJob` on an existing (unexpired) record first emits exactly
the snapshot of the job's current state; when that state is already
terminal, the emission list is exactly that single update, the updates
channel is closed by the watcher itself, and no error is reported — the
stream ends right after the single emission. -/
theorem watchJob_initial_emission (s : FSState) (id : String) (now : Int)
    (delOk : Bool) (snaps : List (Option FirestoreJob)) (fj : FirestoreJob)
    (h : s.jobs id = some fj) (hlive : ¬(fj.expiresAt > 0 ∧ now > fj.expiresAt)) :
    (watchJob s id now delOk snaps).sent.head? = some
      { id := fj.id, status := fj.status, message := fj.message,
        resultURL :=
          if fj.status = "completed" then
            match s.results id with
            | some r => r.resultURL
            | none => ""
          else "",
        updatedAt := fj.updatedAt }
    ∧ (isTerminal fj.status = true →
        watchJob s id now delOk snaps =
          { sent := [{ id := fj.id, status := fj.status, message := fj.message,
                       resultURL :=
                         if fj.status = "completed" then
                           match s.results id with
                           | some r => r.resultURL
                           | none => ""
                         else "",
                       updatedAt := fj.updatedAt }],
            err := none, closedByWatcher := true }) := by
  simp only [watchJob, getJob, h, if_neg hlive, JobView.toUpdate]
  by_cases ht : isTerminal fj.status = true
  · simp [ht]
  · simp [ht]

/-- A Firestore state holding one already-failed job, for the C7 witness. -/
def failedFS : FSState :=
  { jobs := fun k => if k = "j1" then
      some { id := "j1", status := "failed", message := "Failed to generate slides: boom",
             createdAt := 10, updatedAt := 20, expiresAt := 0 }
      else none,
    results := fun _ => none }

/-- Witness for C7: watching an already-failed job emits its snapshot
once and closes immediately, even though further snapshots were
available. -/
theorem watchJob_initial_emission_witness :
    watchJob failedFS
      "j1" 50 true [some { id := "j1", status := "failed", message := "x",
                           createdAt := 10, updatedAt := 21, expiresAt := 0 }] =
      { sent := [{ id := "j1", status := "failed",
                   message := "Failed to generate slides: boom",
                   resultURL := "", updatedAt := 20 }],
        err := none, closedByWatcher := true } :=
  (watchJob_initial_emission failedFS "j1" 50 true
      [some { id := "j1", status := "failed", message := "x",
              createdAt := 10, updatedAt := 21, expiresAt := 0 }]
      { id := "j1", status := "failed", message := "Failed to generate slides: boom",
        createdAt := 10, updatedAt := 20, expiresAt := 0 }
      rfl (by decide)).2 (by decide)

/-- An empty Cloud Storage bucket. -/
def emptyGcs : GcsStore := fun _ => none

/-- C10: in the cross-process variant, once the initial `queued` record
has been written, a failure while staging a file to GCS or while creating
the Cloud Task makes `AddJob` update that record to `failed` and return
both the failed in-memory job and a non-nil error — the caller receives
an error, yet a queryable job record (with status `failed`) remains in
the store. -/
theorem ctAddJob_failure_leaves_record (env : AddEnv) (fs0 : FSState)
    (gcs0 : GcsStore) (id theme : String) (files : List File) (now : Int)
    (hset : env.setOk = true) (hupd : env.updOk = true)
    (hfail : (∃ fname, (uploadFilesToGCS env.uploadOk id gcs0 files).2 = Except.error fname)
      ∨ env.taskOk = false) :
    ∃ j e, (ctAddJob env fs0 gcs0 id theme files now).job = some j
      ∧ (ctAddJob env fs0 gcs0 id theme files now).err = some e
      ∧ j.status = "failed"
      ∧ ∃ rec, (ctAddJob env fs0 gcs0 id theme files now).fs.jobs id = some rec
          ∧ rec.status = "failed" := by
  rcases hgr : uploadFilesToGCS env.uploadOk id gcs0 files with ⟨g, r⟩
  cases r with
  | error fname =>
    simp only [ctAddJob, hset, not_true_eq_false, if_false, hgr]
    refine ⟨_, _, rfl, rfl, rfl, ?_⟩
    simp [FSState.updateJobDoc, FSState.setJobDoc, hupd]
  | ok refs =>
    have htask : env.taskOk = false := by
      rcases hfail with ⟨fname, hf⟩ | htask
      · rw [hgr] at hf
        simp at hf
      · exact htask
    simp only [ctAddJob, hset, not_true_eq_false, if_false, hgr, htask,
      Bool.false_eq_true, not_false_eq_true, if_true]
    refine ⟨_, _, rfl, rfl, rfl, ?_⟩
    simp [FSState.updateJobDoc, FSState.setJobDoc, hupd]

/-- The environment of the C10 witness: the Firestore `Set` succeeds but
every GCS upload fails. -/
def addEnvUploadFails : AddEnv :=
  { setOk := true, uploadOk := fun _ => false, updOk := true, taskOk := true }

/-- Witness for C10: with a failing GCS upload, `AddJob` returns a failed
job together with an error, and the store still holds the record, now
with status `failed`. -/
theorem ctAddJob_failure_leaves_record_witness :
    ((ctAddJob addEnvUploadFails emptyFS emptyGcs "j1" "default"
        [{ filename := "a.md", data := [1], type := "text/plain" }] 5).job.map
      JobView.status = some "failed")
    ∧ ((ctAddJob addEnvUploadFails emptyFS emptyGcs "j1" "default"
        [{ filename := "a.md", data := [1], type := "text/plain" }] 5).err.isSome = true)
    ∧ (((ctAddJob addEnvUploadFails emptyFS emptyGcs "j1" "default"
        [{ filename := "a.md", data := [1], type := "text/plain" }] 5).fs.jobs "j1").map
      FirestoreJob.status = some "failed") := by
  obtain ⟨j, e, hj, he, hjs, rec, hrec, hrs⟩ :=
    ctAddJob_failure_leaves_record addEnvUploadFails emptyFS emptyGcs "j1" "default"
      [{ filename := "a.md", data := [1], type := "text/plain" }] 5 rfl rfl
      (Or.inl ⟨"a.md", rfl⟩)
  simp [hj, he, hjs, hrec, hrs]

/-- `updateJobDoc` never touches the results collection. -/
theorem updateJobDoc_results (s : FSState) (wok : Bool) (id st msg : String)
    (now : Int) (e : Option Int) :
    ((s.updateJobDoc wok id st msg now e).2).results = s.results := by
  unfold FSState.updateJobDoc
  cases wok with
  | false => rfl
  | true => cases h : s.jobs id <;> simp [FSState.setJobDoc, h]

/-- Replaying a trace that contains no result-store write leaves the
results collection untouched, whatever the write-success pattern. -/
theorem applyWrites_results_preserved (okF : Nat → Bool) (ws : List FsWrite)
    (hno : ∀ w ∈ ws, w.isSetResult = false) :
    ∀ k0 s, (applyWrites okF k0 s ws).results = s.results := by
  induction ws with
  | nil => intro k0 s; rfl
  | cons w ws ih =>
    intro k0 s
    have hw := hno w (List.mem_cons_self w ws)
    have hrest : ∀ w₂ ∈ ws, w₂.isSetResult = false :=
      fun w₂ hm => hno w₂ (List.mem_cons_of_mem w hm)
    rw [applyWrites, ih hrest]
    cases w with
    | updateJob id st msg t e => exact updateJobDoc_results s (okF k0) id st msg t e
    | setResult id r => simp [FsWrite.isSetResult] at hw

/-- The initial Firestore state of several concrete runs: `AddJob` has
written the `queued` record for job `j1` at time 50. -/
def queuedFS : FSState := (fsAddJob true emptyFS "j1" 50).2

/-- C1 counterexample: a failed run (all Firestore writes succeeding).
The terminal `failed` status is written, but `expiresAt` remains 0 — no
expiry timestamp is ever set on a failed job (only `setJobCompleted`
writes one), so the claim that an expiry is set at the moment either
terminal state is written is false; indeed `GetJob` still finds the
failed record arbitrarily far in the future. -/
theorem processJob_failed_no_expiry :
    ((((applyWrites (fun _ => true) 0 queuedFS
        (processJobWrites "j1" ["Analyzing uploaded files"]
          (Except.error "documents are too large to process") 100)).jobs "j1").map
      FirestoreJob.status = some "failed")
    ∧ (((applyWrites (fun _ => true) 0 queuedFS
        (processJobWrites "j1" ["Analyzing uploaded files"]
          (Except.error "documents are too large to process") 100)).jobs "j1").map
      FirestoreJob.expiresAt = some 0)
    ∧ ((getJob (applyWrites (fun _ => true) 0 queuedFS
        (processJobWrites "j1" ["Analyzing uploaded files"]
          (Except.error "documents are too large to process") 100)) "j1"
        1000000000 true).1.isSome = true)) := by
  refine ⟨?_, ?_, ?_⟩ <;> rfl

/-- C1 (amended): `AddJob` writes the initial `queued` record; every
status `processJob` ever writes is one of the four legal values; every
write before the final one is an intra-state `processing` update (so once
the terminal status is written, no later write of the run touches the
job); the final write is `failed` (carrying the error message, with no
expiry) on generator failure, and `completed` with expiry `now + 300` on
success — the expiry timestamp is set only on the completed transition. -/
theorem processJob_state_machine (s : FSState) (id : String) (msgs : List String)
    (outcome : Except String (List Nat)) (now now0 : Int) :
    ((fsAddJob true s id now0).2.jobs id =
      some { id := id, status := "queued", message := "Job added to queue",
             createdAt := now0, updatedAt := now0, expiresAt := 0 })
    ∧ (∀ w ∈ processJobWrites id msgs outcome now, ∀ st, w.statusOf = some st →
        st ∈ validStatuses)
    ∧ (∀ w ∈ (processJobWrites id msgs outcome now).dropLast, ∀ st,
        w.statusOf = some st → st = "processing")
    ∧ (∀ e, outcome = Except.error e →
        (processJobWrites id msgs outcome now).getLast? =
          some (FsWrite.updateJob id "failed"
            ("Failed to generate slides: " ++ e) now none))
    ∧ (∀ pdf, outcome = Except.ok pdf →
        (processJobWrites id msgs outcome now).getLast? =
          some (FsWrite.updateJob id "completed" "Slides generated successfully"
            now (some (now + 300)))) := by
  refine ⟨by simp [fsAddJob, FSState.setJobDoc], ?_, ?_, ?_, ?_⟩
  · intro w hw st hst
    cases outcome with
    | error e =>
      simp only [processJobWrites, updateJobStatusWrite, List.mem_cons,
        List.mem_append, List.mem_map, List.mem_singleton,
        List.not_mem_nil, or_false] at hw
      rcases hw with (h0 | ⟨m, hm, hmw⟩) | h1
      · subst h0; simp only [FsWrite.statusOf] at hst
        injection hst with h; subst h; decide
      · subst hmw; simp only [FsWrite.statusOf] at hst
        injection hst with h; subst h; decide
      · subst h1; simp only [FsWrite.statusOf] at hst
        injection hst with h; subst h; decide
    | ok pdf =>
      simp only [processJobWrites, updateJobStatusWrite, storeResultWrite,
        setJobCompletedWrite, List.mem_cons, List.mem_append, List.mem_map,
        List.mem_singleton, List.not_mem_nil, or_false] at hw
      rcases hw with (h0 | ⟨m, hm, hmw⟩) | h1 | h2
      · subst h0; simp only [FsWrite.statusOf] at hst
        injection hst with h; subst h; decide
      · subst hmw; simp only [FsWrite.statusOf] at hst
        injection hst with h; subst h; decide
      · subst h1; simp [FsWrite.statusOf] at hst
      · subst h2; simp only [FsWrite.statusOf] at hst
        injection hst with h; subst h; decide
  · intro w hw st hst
    cases outcome with
    | error e =>
      have hshape : processJobWrites id msgs (Except.error e) now =
          (updateJobStatusWrite id "processing" "Processing slides" now
            :: msgs.map (fun m => updateJobStatusWrite id "processing" m now))
          ++ [updateJobStatusWrite id "failed"
                ("Failed to generate slides: " ++ e) now] := by
        simp [processJobWrites]
      rw [hshape, List.dropLast_concat] at hw
      simp only [updateJobStatusWrite, List.mem_cons, List.mem_map] at hw
      rcases hw with h0 | ⟨m, hm, hmw⟩
      · subst h0; simp only [FsWrite.statusOf] at hst
        injection hst with h; exact h.symm
      · subst hmw; simp only [FsWrite.statusOf] at hst
        injection hst with h; exact h.symm
    | ok pdf =>
      have hshape : processJobWrites id msgs (Except.ok pdf) now =
          ((updateJobStatusWrite id "processing" "Processing slides" now
            :: msgs.map (fun m => updateJobStatusWrite id "processing" m now))
           ++ [storeResultWrite id ("/results/" ++ id) pdf now])
          ++ [setJobCompletedWrite id "Slides generated successfully" now] := by
        simp [processJobWrites]
      rw [hshape, List.dropLast_concat] at hw
      simp only [updateJobStatusWrite, List.mem_append, List.mem_cons,
        List.mem_map, List.mem_singleton, List.not_mem_nil, or_false] at hw
      rcases hw with (h0 | ⟨m, hm, hmw⟩) | h1
      · subst h0; simp only [FsWrite.statusOf] at hst
        injection hst with h; exact h.symm
      · subst hmw; simp only [FsWrite.statusOf] at hst
        injection hst with h; exact h.symm
      · subst h1; simp [storeResultWrite, FsWrite.statusOf] at hst
  · intro e he
    subst he
    have hshape : processJobWrites id msgs (Except.error e) now =
        (updateJobStatusWrite id "processing" "Processing slides" now
          :: msgs.map (fun m => updateJobStatusWrite id "processing" m now))
        ++ [updateJobStatusWrite id "failed"
              ("Failed to generate slides: " ++ e) now] := by
      simp [processJobWrites]
    rw [hshape, List.getLast?_concat]
    rfl
  · intro pdf hp
    subst hp
    have hshape : processJobWrites id msgs (Except.ok pdf) now =
        ((updateJobStatusWrite id "processing" "Processing slides" now
          :: msgs.map (fun m => updateJobStatusWrite id "processing" m now))
         ++ [storeResultWrite id ("/results/" ++ id) pdf now])
        ++ [setJobCompletedWrite id "Slides generated successfully" now] := by
      simp [processJobWrites]
    rw [hshape, List.getLast?_concat]
    rfl

/-- Witness for C1 (amended): the terminal write of a concrete failing
run and of a concrete succeeding run, obtained from the theorem. -/
theorem processJob_state_machine_witness :
    ((processJobWrites "j1" ["Analyzing uploaded files"]
        (Except.error "boom") 100).getLast? =
      some (FsWrite.updateJob "j1" "failed" "Failed to generate slides: boom" 100 none))
    ∧ ((processJobWrites "j1" ["Analyzing uploaded files"]
        (Except.ok [37, 80]) 100).getLast? =
      some (FsWrite.updateJob "j1" "completed" "Slides generated successfully"
        100 (some 400))) :=
  ⟨(processJob_state_machine emptyFS "j1" ["Analyzing uploaded files"]
      (Except.error "boom") 100 0).2.2.2.1 "boom" rfl,
   (processJob_state_machine emptyFS "j1" ["Analyzing uploaded files"]
      (Except.ok [37, 80]) 100 0).2.2.2.2 [37, 80] rfl⟩

/-- C5: when the combined token estimate exceeds the fixed ceiling of
16384, the generator fails with the "documents are too large to process"
error (after the three progress messages preceding the check); the
dispatcher then writes `failed` carrying that error message as its final
write — nothing follows it, so processing is not retried — and the run
leaves the results collection completely untouched, whatever the store
state and whichever writes succeed. -/
theorem generation_failure_no_result (env : GenEnv) (id : String) (now : Int)
    (h1 : env.uploadErr = none) (h2 : env.promptErr = none)
    (h3 : env.countErr = none) (htok : env.totalTokens > tokenCeiling) :
    generateSlidesO (fun _ => none) env =
      (genMsgs.take 3, Except.error "documents are too large to process")
    ∧ (processJobWrites id (genMsgs.take 3)
        (Except.error "documents are too large to process") now).getLast? =
      some (FsWrite.updateJob id "failed"
        "Failed to generate slides: documents are too large to process" now none)
    ∧ (∀ okF k0 s, (applyWrites okF k0 s (processJobWrites id (genMsgs.take 3)
        (Except.error "documents are too large to process") now)).results =
        s.results) := by
  refine ⟨?_, rfl, ?_⟩
  · simp [generateSlidesO, h1, h2, h3, if_pos htok]
  · intro okF k0 s
    simp [processJobWrites, genMsgs, applyWrites, applyWrite,
      updateJobStatusWrite, updateJobDoc_results]

/-- A generation environment whose input exceeds the token ceiling. -/
def tooLargeGen : GenEnv := { happyGen with totalTokens := 20000 }

/-- Witness for C5: the concrete over-limit run fails with the size-limit
message and creates no result entry for the job. -/
theorem generation_failure_no_result_witness :
    generateSlidesO (fun _ => none) tooLargeGen =
      (genMsgs.take 3, Except.error "documents are too large to process")
    ∧ (applyWrites (fun _ => true) 0 queuedFS
        (processJobWrites "j1" (genMsgs.take 3)
          (Except.error "documents are too large to process") 100)).results "j1" =
      none :=
  ⟨(generation_failure_no_result tooLargeGen "j1" 100 rfl rfl rfl (by decide)).1,
   by
    rw [(generation_failure_no_result tooLargeGen "j1" 100 rfl rfl rfl
      (by decide)).2.2 (fun _ => true) 0 queuedFS]
    rfl⟩

/-- C4 counterexample, in the single-process variant: a run whose
generation succeeds but whose result-store write fails (write index 1 of
the trace) still marks the job `completed` — `processJob` discards the
error `storeResult` returns and calls `setJobCompleted` unconditionally —
so completion is reported with no result entry in the store, instead of
the job being marked failed. -/
theorem storeResult_failure_still_completed :
    (((applyWrites (fun k => decide (k ≠ 1)) 0 queuedFS
        (processJobWrites "j1" [] (Except.ok [37, 80]) 100)).jobs "j1").map
      FirestoreJob.status = some "completed")
    ∧ ((applyWrites (fun k => decide (k ≠ 1)) 0 queuedFS
        (processJobWrites "j1" [] (Except.ok [37, 80]) 100)).results "j1" = none) :=
  ⟨rfl, rfl⟩

/-- A successful `GenerateSlides` run: when the status callback never
errors and every external call succeeds (and the input fits under the
token ceiling, and the model output contains extractable markdown), the
generator issues all four progress messages and returns the rendered
artifacts. -/
theorem generateSlidesO_success (upd : Nat → Option String) (env : GenEnv)
    (hu : ∀ k, upd k = none)
    (h1 : env.uploadErr = none) (h2 : env.promptErr = none)
    (h3 : env.countErr = none) (htok : ¬env.totalTokens > tokenCeiling)
    (h4 : env.modelErr = none)
    (hext : ¬extractMarkdownContent env.modelText = "")
    (h5 : env.pdfErr = none) (h6 : env.htmlErr = none) :
    generateSlidesO upd env = (genMsgs, Except.ok (env.pdfBytes, env.htmlBytes)) := by
  simp [generateSlidesO, hu, h1, h2, h3, if_neg htok, h4, if_neg hext, h5, h6, genMsgs]

/-- The progress-write replay keeps the job document present, preserves
its identity fields (`id`, `createdAt`, `expiresAt`) and leaves the
results collection untouched. -/
theorem applyProgress_spec (msgs : List String) (fs : FSState) (jobID : String)
    (now : Int) (updOk : Nat → Bool) (k : Nat) (fj : FirestoreJob)
    (h : fs.jobs jobID = some fj) :
    ∃ fj2, (processSlides.applyProgress fs jobID msgs now updOk k).jobs jobID = some fj2
      ∧ fj2.id = fj.id ∧ fj2.createdAt = fj.createdAt ∧ fj2.expiresAt = fj.expiresAt
      ∧ (processSlides.applyProgress fs jobID msgs now updOk k).results = fs.results := by
  induction msgs generalizing fs k fj with
  | nil => exact ⟨fj, by simpa [processSlides.applyProgress] using h, rfl, rfl, rfl, rfl⟩
  | cons m rest ih =>
    rw [processSlides.applyProgress]
    cases hwk : updOk k with
    | false =>
      have hdoc : ((fs.updateJobDoc false jobID "processing" m now none).2) = fs := by
        simp [FSState.updateJobDoc]
      rw [hdoc]
      exact ih fs k.succ fj h
    | true =>
      have hdoc : ((fs.updateJobDoc true jobID "processing" m now none).2) =
          fs.setJobDoc jobID
            { fj with status := "processing", message := m, updatedAt := now } := by
        simp [FSState.updateJobDoc, h]
      rw [hdoc]
      obtain ⟨fj2, hj, hid, hcr, hexp, hres⟩ :=
        ih (fs.setJobDoc jobID
          { fj with status := "processing", message := m, updatedAt := now })
          k.succ { fj with status := "processing", message := m, updatedAt := now }
          (by simp [FSState.setJobDoc])
      exact ⟨fj2, hj, hid, hcr, hexp, by rw [hres]; rfl⟩

/-- The hypotheses shared by the `ProcessSlides` run lemmas: storage is
configured, every job-status write succeeds, the job document exists, all
file downloads succeed, and every step of the generation itself
succeeds. -/
structure CleanRun (env : TaskEnv) (p : TaskPayload) (fs0 : FSState)
    (gcs0 : GcsStore) (fj : FirestoreJob) (fl : List File) : Prop where
  hst : env.storageOk = true
  hupd : ∀ k, env.updOk k = true
  hjob : fs0.jobs p.jobID = some fj
  hdl : downloadFiles gcs0 p.files = Except.ok fl
  h1 : env.gen.uploadErr = none
  h2 : env.gen.promptErr = none
  h3 : env.gen.countErr = none
  htok : ¬env.gen.totalTokens > tokenCeiling
  h4 : env.gen.modelErr = none
  hext : ¬extractMarkdownContent env.gen.modelText = ""
  h5 : env.gen.pdfErr = none
  h6 : env.gen.htmlErr = none

/-- C4 (amended) and C9 backbone: a clean `ProcessSlides` run whose
result write and completion write both succeed answers 200, the result
entry is in the store, the job document is `completed` with the 5 minute
expiry, and the bucket is exactly the original bucket with the staged
files (best-effort) deleted. -/
theorem processSlides_success_run (env : TaskEnv) (p : TaskPayload) (now : Int)
    (fs0 : FSState) (gcs0 : GcsStore) (fj : FirestoreJob) (fl : List File)
    (hc : CleanRun env p fs0 gcs0 fj fl)
    (hres : env.resultSetOk = true) (hcmp : env.completeOk = true) :
    (processSlides env p now fs0 gcs0).httpStatus = 200
    ∧ (processSlides env p now fs0 gcs0).fs.jobs p.jobID =
        some { id := fj.id, status := "completed",
               message := "Slides generated successfully",
               createdAt := fj.createdAt, updatedAt := now, expiresAt := now + 300 }
    ∧ (processSlides env p now fs0 gcs0).fs.results p.jobID =
        some { id := p.jobID, resultURL := "/results/" ++ p.jobID,
               pdfData := env.gen.pdfBytes, htmlData := env.gen.htmlBytes,
               createdAt := now, expiresAt := now + 3600 }
    ∧ (processSlides env p now fs0 gcs0).gcs =
        deleteStaged env.deleteOk gcs0 (p.files.map FileRef.gcsPath) := by
  obtain ⟨hst, hupd, hjob, hdl, h1, h2, h3, htok, h4, hext, h5, h6⟩ := hc
  have hgen : generateSlidesO (fun _ => none) env.gen =
      (genMsgs, Except.ok (env.gen.pdfBytes, env.gen.htmlBytes)) :=
    generateSlidesO_success _ env.gen (fun _ => rfl) h1 h2 h3 htok h4 hext h5 h6
  simp only [processSlides, hst, hupd, hjob, hdl, hres, hcmp,
    FSState.updateJobDoc, FSState.setJobDoc, FSState.setResultDoc,
    Option.getD, not_true_eq_false, Bool.false_eq_true, if_false, if_true,
    Option.isSome_some, and_true, true_and, if_pos rfl, hgen]
  obtain ⟨fj2, hj2, hid, hcr, hexp, hres2⟩ :=
    applyProgress_spec genMsgs
      { jobs := fun k => if k = p.jobID then
          some { id := fj.id, status := "processing", message := "Processing slides",
                 createdAt := fj.createdAt, updatedAt := now, expiresAt := fj.expiresAt }
          else fs0.jobs k,
        results := fs0.results }
      p.jobID now env.updOk 1
      { id := fj.id, status := "processing", message := "Processing slides",
        createdAt := fj.createdAt, updatedAt := now, expiresAt := fj.expiresAt }
      (by simp)
  rw [hj2]
  simp [hid, hcr]

/-- C4 backbone, failing terminal write: a clean `ProcessSlides` run
whose result-store write fails answers 500, marks the job `failed`, and
leaves no result entry and an untouched bucket — completion is not
reported to any layer. -/
theorem processSlides_resultWriteFails_run (env : TaskEnv) (p : TaskPayload)
    (now : Int) (fs0 : FSState) (gcs0 : GcsStore) (fj : FirestoreJob)
    (fl : List File) (hc : CleanRun env p fs0 gcs0 fj fl)
    (hres : env.resultSetOk = false) (hres0 : fs0.results p.jobID = none) :
    (processSlides env p now fs0 gcs0).httpStatus = 500
    ∧ ((processSlides env p now fs0 gcs0).fs.jobs p.jobID).map
        FirestoreJob.status = some "failed"
    ∧ (processSlides env p now fs0 gcs0).fs.results p.jobID = none
    ∧ (processSlides env p now fs0 gcs0).gcs = gcs0 := by
  obtain ⟨hst, hupd, hjob, hdl, h1, h2, h3, htok, h4, hext, h5, h6⟩ := hc
  have hgen : generateSlidesO (fun _ => none) env.gen =
      (genMsgs, Except.ok (env.gen.pdfBytes, env.gen.htmlBytes)) :=
    generateSlidesO_success _ env.gen (fun _ => rfl) h1 h2 h3 htok h4 hext h5 h6
  simp only [processSlides, hst, hupd, hjob, hdl, hres,
    FSState.updateJobDoc, FSState.setJobDoc, FSState.setResultDoc,
    Option.getD, not_true_eq_false, Bool.false_eq_true, if_false, if_true,
    Option.isSome_some, and_true, true_and, if_pos rfl, hgen]
  obtain ⟨fj2, hj2, hid, hcr, hexp, hres2⟩ :=
    applyProgress_spec genMsgs
      { jobs := fun k => if k = p.jobID then
          some { id := fj.id, status := "processing", message := "Processing slides",
                 createdAt := fj.createdAt, updatedAt := now, expiresAt := fj.expiresAt }
          else fs0.jobs k,
        results := fs0.results }
      p.jobID now env.updOk 1
      { id := fj.id, status := "processing", message := "Processing slides",
        createdAt := fj.createdAt, updatedAt := now, expiresAt := fj.expiresAt }
      (by simp)
  rw [hj2]
  simp [hid, hcr, hres2, hres0]

/-- `deleteStaged` deletes every listed path whose deletion succeeds. -/
theorem deleteStaged_deletes (delOk : String → Bool) (gcs : GcsStore)
    (paths : List String) (path : String) (hmem : path ∈ paths)
    (hok : delOk path = true) :
    deleteStaged delOk gcs paths path = none := by
  induction paths generalizing gcs with
  | nil => cases hmem
  | cons q rest ih =>
    rw [deleteStaged]
    rcases List.mem_cons.1 hmem with hq | hq
    · subst hq
      have hnone : (if delOk path then
          (fun k => if k = path then none else gcs k) else gcs) path = none := by
        simp [hok]
      exact deleteStaged_none delOk _ rest path hnone
    · exact ih _ hq
where
  /-- `deleteStaged` never re-creates an object. -/
  deleteStaged_none (delOk : String → Bool) (gcs : GcsStore)
      (paths : List String) (path : String) (h : gcs path = none) :
      deleteStaged delOk gcs paths path = none := by
    induction paths generalizing gcs with
    | nil => exact h
    | cons q rest ih =>
      rw [deleteStaged]
      apply ih
      by_cases hq : delOk q = true
      · simp only [hq, if_true]
        by_cases hpq : path = q
        · subst hpq; simp
        · simp [hpq, h]
      · simp only [Bool.not_eq_true] at hq
        simp [hq, h]

/-- A failed deletion leaves the object in place (and `deleteStaged`
touches nothing else). -/
theorem deleteStaged_skips_failed (delOk : String → Bool) (gcs : GcsStore)
    (paths : List String) (path : String) (hok : delOk path = false) :
    deleteStaged delOk gcs paths path = gcs path := by
  induction paths generalizing gcs with
  | nil => rfl
  | cons q rest ih =>
    rw [deleteStaged]
    rw [ih]
    by_cases hq : delOk q = true
    · simp only [hq, if_true]
      by_cases hpq : path = q
      · subst hpq; rw [hok] at hq; cases hq
      · simp [hpq]
    · simp only [Bool.not_eq_true] at hq
      simp [hq]

/-- No result-store write among the progress updates. -/
theorem filter_setResult_progress (id : String) (msgs : List String) (now : Int) :
    (msgs.map (fun m => updateJobStatusWrite id "processing" m now)).filter
      FsWrite.isSetResult = [] := by
  induction msgs with
  | nil => rfl
  | cons m rest ih => simp [updateJobStatusWrite, FsWrite.isSetResult, ih]

/-! ### Concrete fixtures for the cross-process runs -/

/-- A task environment in which every external call succeeds. -/
def taskEnvAllOk : TaskEnv :=
  { storageOk := true, updOk := fun _ => true, gen := happyGen,
    resultSetOk := true, completeOk := true, deleteOk := fun _ => true }

/-- A one-file task payload for job `j1`. -/
def payload1 : TaskPayload :=
  { jobID := "j1", theme := "default",
    files := [{ filename := "a.md", type := "text/plain", gcsPath := "j1/a.md" }],
    settings := { slideDetail := "minimal", audience := "general" } }

/-- The bucket holding the staged input file of `payload1`. -/
def stagedGcs : GcsStore :=
  fun k => if k = "j1/a.md" then
    some { data := [104, 105], contentType := "text/plain" } else none

/-- The `queued` record `AddJob` wrote for `j1` (the content of
`queuedFS`). -/
def queuedRec : FirestoreJob :=
  { id := "j1", status := "queued", message := "Job added to queue",
    createdAt := 50, updatedAt := 50, expiresAt := 0 }

/-- The all-succeeding fixture run is clean. -/
theorem cleanRun_fixture : CleanRun taskEnvAllOk payload1 queuedFS stagedGcs
    queuedRec [{ filename := "a.md", data := [104, 105], type := "text/plain" }] :=
  ⟨rfl, fun _ => rfl, rfl, rfl, rfl, rfl, rfl, by decide, rfl, by decide, rfl, rfl⟩

/-- C4 (amended): in the cross-process variant the Dispatcher stores the
result exactly once immediately before marking the job completed, never
reports completion unless the result write succeeded, and marks the job
failed when it did not; in the single-process variant the result write is
likewise issued exactly once, immediately before the completed write
(the last two writes of the trace), but — per the counterexample — its
failure is ignored there. -/
theorem terminal_write_discipline (env : TaskEnv) (p : TaskPayload) (now : Int)
    (fs0 : FSState) (gcs0 : GcsStore) (fj : FirestoreJob) (fl : List File)
    (id : String) (msgs : List String) (pdf : List Nat)
    (hc : CleanRun env p fs0 gcs0 fj fl) (hres0 : fs0.results p.jobID = none) :
    (env.resultSetOk = true → env.completeOk = true →
      (processSlides env p now fs0 gcs0).httpStatus = 200
      ∧ (processSlides env p now fs0 gcs0).fs.results p.jobID =
          some { id := p.jobID, resultURL := "/results/" ++ p.jobID,
                 pdfData := env.gen.pdfBytes, htmlData := env.gen.htmlBytes,
                 createdAt := now, expiresAt := now + 3600 }
      ∧ ((processSlides env p now fs0 gcs0).fs.jobs p.jobID).map
          FirestoreJob.status = some "completed")
    ∧ (env.resultSetOk = false →
      (processSlides env p now fs0 gcs0).httpStatus = 500
      ∧ ((processSlides env p now fs0 gcs0).fs.jobs p.jobID).map
          FirestoreJob.status = some "failed"
      ∧ (processSlides env p now fs0 gcs0).fs.results p.jobID = none)
    ∧ ((processJobWrites id msgs (Except.ok pdf) now).filter FsWrite.isSetResult =
        [storeResultWrite id ("/results/" ++ id) pdf now])
    ∧ ((processJobWrites id msgs (Except.ok pdf) now).getLast? =
        some (setJobCompletedWrite id "Slides generated successfully" now))
    ∧ ((processJobWrites id msgs (Except.ok pdf) now).dropLast.getLast? =
        some (storeResultWrite id ("/results/" ++ id) pdf now)) := by
  have hshape : processJobWrites id msgs (Except.ok pdf) now =
      ((updateJobStatusWrite id "processing" "Processing slides" now
        :: msgs.map (fun m => updateJobStatusWrite id "processing" m now))
       ++ [storeResultWrite id ("/results/" ++ id) pdf now])
      ++ [setJobCompletedWrite id "Slides generated successfully" now] := by
    simp [processJobWrites]
  refine ⟨?_, ?_, ?_, ?_, ?_⟩
  · intro hres hcmp
    obtain ⟨hh, hjobs, hresults, hgcs⟩ :=
      processSlides_success_run env p now fs0 gcs0 fj fl hc hres hcmp
    exact ⟨hh, hresults, by rw [hjobs]; rfl⟩
  · intro hres
    obtain ⟨hh, hjobs, hresults, hgcs⟩ :=
      processSlides_resultWriteFails_run env p now fs0 gcs0 fj fl hc hres hres0
    exact ⟨hh, hjobs, hresults⟩
  · rw [hshape]
    simp [List.filter_append, List.filter_cons, filter_setResult_progress,
      updateJobStatusWrite, setJobCompletedWrite, storeResultWrite,
      FsWrite.isSetResult]
  · rw [hshape, List.getLast?_concat]
  · rw [hshape, List.dropLast_concat, List.getLast?_concat]

/-- Witness for C4 (amended): the fixture success run answers 200 with
the result entry stored and the job completed. -/
theorem terminal_write_discipline_witness :
    (processSlides taskEnvAllOk payload1 100 queuedFS stagedGcs).httpStatus = 200
    ∧ (processSlides taskEnvAllOk payload1 100 queuedFS stagedGcs).fs.results "j1" =
        some { id := "j1", resultURL := "/results/j1",
               pdfData := [37, 80, 68, 70], htmlData := [60],
               createdAt := 100, expiresAt := 3700 }
    ∧ ((processSlides taskEnvAllOk payload1 100 queuedFS stagedGcs).fs.jobs "j1").map
        FirestoreJob.status = some "completed" :=
  (terminal_write_discipline taskEnvAllOk payload1 100 queuedFS stagedGcs queuedRec
    [{ filename := "a.md", data := [104, 105], type := "text/plain" }]
    "j1" [] [1] cleanRun_fixture rfl).1 rfl rfl

/-- A task environment identical to `taskEnvAllOk` except that the third
job-status Firestore write (the "Generating content for slides" progress
update issued from inside the generator) fails. -/
def taskEnvProgressFail : TaskEnv :=
  { taskEnvAllOk with updOk := fun k => decide (k ≠ 2) }

/-- C8 counterexample, in the task-queue variant: the status callback
returns the Firestore write error to the generator, which aborts; so a
single failed progress write turns an otherwise fully successful
generation (same environment, compare the all-ok run) into a failed
job. -/
theorem progressWriteFailure_marks_failed :
    (((processSlides taskEnvProgressFail payload1 100 queuedFS stagedGcs).fs.jobs
        "j1").map FirestoreJob.status = some "failed")
    ∧ (processSlides taskEnvProgressFail payload1 100 queuedFS stagedGcs).httpStatus = 500
    ∧ (((processSlides taskEnvAllOk payload1 100 queuedFS stagedGcs).fs.jobs
        "j1").map FirestoreJob.status = some "completed") :=
  ⟨rfl, rfl, rfl⟩

/-- C8 (amended): in the single-process variant the status callback
passed to the generator unconditionally returns nil (the Firestore error
of a progress write is logged and discarded), which is the `fun _ => none`
callback: generation completes whatever the store does, and the write
trace of a successful generation never contains a `failed` status — its
terminal write is the completed one. -/
theorem progress_write_failures_nonfatal (env : GenEnv) (id : String) (now : Int)
    (h1 : env.uploadErr = none) (h2 : env.promptErr = none)
    (h3 : env.countErr = none) (htok : ¬env.totalTokens > tokenCeiling)
    (h4 : env.modelErr = none)
    (hext : ¬extractMarkdownContent env.modelText = "")
    (h5 : env.pdfErr = none) (h6 : env.htmlErr = none) :
    generateSlidesO (fun _ => none) env =
      (genMsgs, Except.ok (env.pdfBytes, env.htmlBytes))
    ∧ (∀ w ∈ processJobWrites id genMsgs (Except.ok env.pdfBytes) now,
        FsWrite.statusOf w ≠ some "failed")
    ∧ ((processJobWrites id genMsgs (Except.ok env.pdfBytes) now).getLast? =
        some (setJobCompletedWrite id "Slides generated successfully" now)) := by
  have hshape : processJobWrites id genMsgs (Except.ok env.pdfBytes) now =
      ((updateJobStatusWrite id "processing" "Processing slides" now
        :: genMsgs.map (fun m => updateJobStatusWrite id "processing" m now))
       ++ [storeResultWrite id ("/results/" ++ id) env.pdfBytes now])
      ++ [setJobCompletedWrite id "Slides generated successfully" now] := by
    simp [processJobWrites]
  refine ⟨generateSlidesO_success _ env (fun _ => rfl) h1 h2 h3 htok h4 hext h5 h6,
    ?_, by rw [hshape, List.getLast?_concat]⟩
  intro w hw
  rw [hshape] at hw
  simp only [updateJobStatusWrite, storeResultWrite, setJobCompletedWrite,
    List.mem_append, List.mem_cons, List.mem_map, List.mem_singleton,
    List.not_mem_nil, or_false] at hw
  rcases hw with ((h0 | ⟨m, hm, hmw⟩) | hr) | hcmpl
  · subst h0; simp [FsWrite.statusOf]
  · subst hmw; simp [FsWrite.statusOf]
  · subst hr; simp [FsWrite.statusOf]
  · subst hcmpl; simp [FsWrite.statusOf]

/-- Witness for C8 (amended): the concrete all-succeeding generation,
with its completed terminal write. -/
theorem progress_write_failures_nonfatal_witness :
    generateSlidesO (fun _ => none) happyGen =
      (genMsgs, Except.ok (happyGen.pdfBytes, happyGen.htmlBytes))
    ∧ ((processJobWrites "j1" genMsgs (Except.ok happyGen.pdfBytes) 100).getLast? =
        some (setJobCompletedWrite "j1" "Slides generated successfully" 100)) :=
  ⟨(progress_write_failures_nonfatal happyGen "j1" 100 rfl rfl rfl (by decide)
      rfl (by decide) rfl rfl).1,
   (progress_write_failures_nonfatal happyGen "j1" 100 rfl rfl rfl (by decide)
      rfl (by decide) rfl rfl).2.2⟩

/-- A task environment whose model call fails. -/
def taskEnvModelFails : TaskEnv :=
  { taskEnvAllOk with gen := { happyGen with modelErr := some "model exploded" } }

/-- C9 counterexample: when generation fails, `ProcessSlides` returns
before the GCS cleanup loop, so the staged input file is not deleted even
though the job has reached the terminal `failed` state — cleanup happens
on the success path only. -/
theorem cleanup_skipped_on_failure :
    (((processSlides taskEnvModelFails payload1 100 queuedFS stagedGcs).fs.jobs
        "j1").map FirestoreJob.status = some "failed")
    ∧ ((processSlides taskEnvModelFails payload1 100 queuedFS stagedGcs).gcs
        "j1/a.md" = some { data := [104, 105], contentType := "text/plain" }) :=
  ⟨rfl, rfl⟩

/-- C9 (amended): on the success path (result stored, before the job is
marked completed) every staged file whose deletion succeeds is removed
from the bucket, a failed deletion leaves the object in place, and in
either case — the hypotheses say nothing about `deleteOk` — the job still
completes with 200: cleanup failures are never fatal. -/
theorem staged_cleanup_on_success (env : TaskEnv) (p : TaskPayload) (now : Int)
    (fs0 : FSState) (gcs0 : GcsStore) (fj : FirestoreJob) (fl : List File)
    (hc : CleanRun env p fs0 gcs0 fj fl)
    (hres : env.resultSetOk = true) (hcmp : env.completeOk = true) :
    (processSlides env p now fs0 gcs0).httpStatus = 200
    ∧ ((processSlides env p now fs0 gcs0).fs.jobs p.jobID).map
        FirestoreJob.status = some "completed"
    ∧ (∀ path ∈ p.files.map FileRef.gcsPath, env.deleteOk path = true →
        (processSlides env p now fs0 gcs0).gcs path = none)
    ∧ (∀ path, env.deleteOk path = false →
        (processSlides env p now fs0 gcs0).gcs path = gcs0 path) := by
  obtain ⟨hh, hjobs, hresults, hgcs⟩ :=
    processSlides_success_run env p now fs0 gcs0 fj fl hc hres hcmp
  refine ⟨hh, by rw [hjobs]; rfl, ?_, ?_⟩
  · intro path hmem hok
    rw [hgcs]
    exact deleteStaged_deletes env.deleteOk gcs0 (p.files.map FileRef.gcsPath)
      path hmem hok
  · intro path hok
    rw [hgcs]
    exact deleteStaged_skips_failed env.deleteOk gcs0 (p.files.map FileRef.gcsPath)
      path hok

/-- A task environment whose GCS deletions all fail. -/
def taskEnvDeleteFails : TaskEnv := { taskEnvAllOk with deleteOk := fun _ => false }

/-- The delete-failing fixture run is clean. -/
theorem cleanRun_fixture_deleteFails : CleanRun taskEnvDeleteFails payload1 queuedFS
    stagedGcs queuedRec
    [{ filename := "a.md", data := [104, 105], type := "text/plain" }] :=
  ⟨rfl, fun _ => rfl, rfl, rfl, rfl, rfl, rfl, by decide, rfl, by decide, rfl, rfl⟩

/-- Witness for C9 (amended): with every deletion failing, the staged
file survives in the bucket, yet the job still completes with 200. -/
theorem staged_cleanup_on_success_witness :
    (processSlides taskEnvDeleteFails payload1 100 queuedFS stagedGcs).httpStatus = 200
    ∧ ((processSlides taskEnvDeleteFails payload1 100 queuedFS stagedGcs).fs.jobs
        "j1").map FirestoreJob.status = some "completed"
    ∧ (processSlides taskEnvDeleteFails payload1 100 queuedFS stagedGcs).gcs
        "j1/a.md" = stagedGcs "j1/a.md" :=
  ⟨(staged_cleanup_on_success taskEnvDeleteFails payload1 100 queuedFS stagedGcs
      queuedRec _ cleanRun_fixture_deleteFails rfl rfl).1,
   (staged_cleanup_on_success taskEnvDeleteFails payload1 100 queuedFS stagedGcs
      queuedRec _ cleanRun_fixture_deleteFails rfl rfl).2.1,
   (staged_cleanup_on_success taskEnvDeleteFails payload1 100 queuedFS stagedGcs
      queuedRec _ cleanRun_fixture_deleteFails rfl rfl).2.2.2 "j1/a.md" rfl⟩

end Slideitin
